import Mathlib

/-
  Verification of the per-URL change-detection workflow of the
  actor-content-checker actor (src/src/main.ts), as a shallow embedding:
  the request handler (outcome classification and retry behaviour), the
  result-processing loop (failure routing, baseline load/diff/write-back),
  the URL identity key derivation, and the notification assembler.
-/

namespace ContentChecker

/-- Bytes of a screenshot buffer, modelled as a list of byte values. -/
abbrev Bytes := List Nat

/-- The configured retry strategy (`Input.retryStrategy`, main.ts line 22). -/
inductive RetryStrategy
  | onBlock
  | onAllErrors
  | neverRetry
deriving DecidableEq, Repr

/-- What a single page visit presents to the request handler:
the HTTP response status, whether `testForBlocks` throws (block detected),
the result of `page.$eval(contentSelector, ...)` (`none` = it threw),
the result of `screenshotDOMElement` (`none` = it threw), and the bytes a
full-page fallback `page.screenshot` would return. -/
structure VisitResult where
  status : Nat
  blocked : Bool
  extractedContent : Option String
  elementScreenshot : Option Bytes
  fullPageShot : Bytes
deriving DecidableEq, Repr

/-- One entry of the `urlResults` map (main.ts lines 87-92). -/
structure UrlResult where
  screenshotBuffer : Option Bytes
  fullPageScreenshot : Option Bytes
  content : Option String
deriving DecidableEq, Repr

/-- Whether the request handler returns normally or throws
(a throw is what makes the crawler retry the request). -/
inductive HandlerAction
  | ret
  | thrw
deriving DecidableEq, Repr

/-- The observable effect of one run of the request handler: whether it
throws, and the `urlResults.set` entry it writes (if any). -/
structure HandlerOutcome where
  action : HandlerAction
  write : Option UrlResult
deriving DecidableEq, Repr

/-- The request handler body (main.ts lines 107-177):
404 returns early with no entry; status >= 400 throws with no entry;
a detected block stores a full-page screenshot entry and rethrows;
a failed content or screenshot extraction stores a full-page screenshot
entry and throws only under on-all-errors; success stores the element
screenshot and content. -/
def handleVisit (strategy : RetryStrategy) (v : VisitResult) : HandlerOutcome :=
  if v.status = 404 ∧ v.status ≠ 0 then
    ⟨.ret, none⟩
  else if 400 ≤ v.status then
    ⟨.thrw, none⟩
  else if v.blocked then
    ⟨.thrw, some ⟨none, some v.fullPageShot, none⟩⟩
  else if v.extractedContent = none ∨ v.elementScreenshot = none then
    ⟨if strategy = .onAllErrors then .thrw else .ret,
      some ⟨none, some v.fullPageShot, none⟩⟩
  else
    ⟨.ret, some ⟨v.elementScreenshot, none, v.extractedContent⟩⟩

/-- `maxRequestRetries` passed to the crawler (main.ts line 97). -/
def maxRequestRetries (strategy : RetryStrategy) (maxRetries : Nat) : Nat :=
  if strategy = .neverRetry then 0 else maxRetries

/-- The crawler retries a request exactly when the handler threw and the
attempt count is still below `maxRequestRetries`. -/
def willRetry (strategy : RetryStrategy) (maxRetries attempt : Nat)
    (v : VisitResult) : Bool :=
  decide ((handleVisit strategy v).action = .thrw) &&
    decide (attempt < maxRequestRetries strategy maxRetries)

/-- The `urlResults` entry left for a URL after the crawler finishes with it.
The handler is a pure function of the visit result, so every attempt
performs the same `urlResults.set` (or none); the surviving entry is the
write of the handler. -/
def finalUrlResult (strategy : RetryStrategy) (v : VisitResult) :
    Option UrlResult :=
  (handleVisit strategy v).write

/-- The per-URL slice of the named key-value store: the four keys
`currentScreenshot_`, `currentData_`, `previousScreenshot_`,
`previousData_` (absent keys read as null). -/
structure UrlStore where
  currentScreenshot : Option Bytes
  currentData : Option String
  previousScreenshot : Option Bytes
  previousData : Option String
deriving DecidableEq, Repr

/-- JavaScript truthiness of the `content` field of a `urlResults` entry:
`!content` is true when content is undefined or the empty string. -/
def jsFalsyContent : Option String → Bool
  | none => true
  | some s => s.isEmpty

/-- Which branch the result-processing loop takes for one URL
(main.ts lines 183-301): the failure handler, the first-run push,
the no-change log, or the changed push/notification. -/
inductive ProcessOutcome
  | failed (fullPageScreenshot : Option Bytes)
  | firstRun (content : String)
  | unchanged
  | changed
deriving DecidableEq, Repr

/-- One iteration of the result-processing loop (main.ts lines 183-301):
a missing screenshot buffer or falsy content goes to the failure handler
and touches no store keys; otherwise the current keys are written, then
`previousScreenshot === null` decides first-run; on a non-first run the
loop writes the just-loaded previous values back to the previous keys
(lines 240-241) and compares `previousData === content`. -/
def processResult (store : UrlStore) (r : UrlResult) :
    UrlStore × ProcessOutcome :=
  if r.screenshotBuffer = none then
    (store, .failed r.fullPageScreenshot)
  else if jsFalsyContent r.content then
    (store, .failed r.fullPageScreenshot)
  else
    let content := r.content.getD ""
    let s1 := { store with
      currentScreenshot := r.screenshotBuffer, currentData := some content }
    if s1.previousScreenshot = none then
      (s1, .firstRun content)
    else
      let s2 := { s1 with
        previousScreenshot := s1.previousScreenshot,
        previousData := s1.previousData }
      if s2.previousData = some content then
        (s2, .unchanged)
      else
        (s2, .changed)

/-- Classification of the diff step alone (main.ts lines 225-247):
`previousScreenshot === null` means first run; otherwise
`previousData === content` (strict equality, null never equal to a
string) decides unchanged vs changed. -/
inductive DiffOutcome
  | FirstRun
  | Unchanged
  | Changed
deriving DecidableEq, Repr

/-- The diff decision of the result-processing loop as a pure function of
the loaded previous screenshot, loaded previous data, and current content. -/
def diff (previousScreenshot : Option Bytes) (previousData : Option String)
    (content : String) : DiffOutcome :=
  if previousScreenshot = none then .FirstRun
  else if previousData = some content then .Unchanged
  else .Changed

/-- The standard base64 alphabet used by `Buffer.toString('base64')`. -/
def b64Alphabet : List Char :=
  "ABCDEFGHIJKLMNOPQRSTUVWXYZabcdefghijklmnopqrstuvwxyz0123456789+/".data

/-- The base64 digit for a 6-bit value. -/
def b64Char (n : Nat) : Char := b64Alphabet.getD n '='

/-- Base64 encoding of a byte list, with `=` padding, as produced by
`Buffer.from(url).toString('base64')`. -/
def base64Encode : List Nat → List Char
  | [] => []
  | [b1] =>
      [b64Char (b1 / 4), b64Char (b1 % 4 * 16), '=', '=']
  | [b1, b2] =>
      [b64Char (b1 / 4), b64Char (b1 % 4 * 16 + b2 / 16),
       b64Char (b2 % 16 * 4), '=']
  | b1 :: b2 :: b3 :: rest =>
      b64Char (b1 / 4) :: b64Char (b1 % 4 * 16 + b2 / 16) ::
      b64Char (b2 % 16 * 4 + b3 / 64) :: b64Char (b3 % 64) ::
      base64Encode rest

/-- The bytes of an ASCII string (UTF-8 bytes coincide with code points
for ASCII, which covers the URLs considered here). -/
def strBytes (s : String) : List Nat := s.data.map Char.toNat

/-- The URL identity key (main.ts line 81):
base64 of the URL bytes with every character outside [a-zA-Z0-9] removed
(the regex strips the base64 specials `+`, `/` and the padding `=`). -/
def urlKey (urlBytes : List Nat) : List Char :=
  (base64Encode urlBytes).filter Char.isAlphanum

/-- An email attachment (filename plus base64 payload). -/
structure Attachment where
  filename : String
  data : List Char
deriving DecidableEq, Repr

/-- The assembled mail payload: report text plus attachments. -/
structure MailContent where
  text : String
  attachments : List Attachment
deriving DecidableEq, Repr

/-- The line appended to the report text when the attachment budget is
exceeded (main.ts line 288). -/
def budgetNote (B : Nat) : String :=
  "\n\nScreenshots are bigger than " ++ toString B ++
    ", not sending them as part of email attachment."

/-- The notification assembler (main.ts lines 272-296): if the sum of the
lengths of the two base64-encoded screenshots is strictly below the budget,
both are attached and the text is untouched; otherwise no attachment is
added and the disclosure line is appended to the text. -/
def assembleNotification (B : Nat) (key : String) (text : String)
    (prev curr : Bytes) : MailContent :=
  let previousScreenshotBase64 := base64Encode prev
  let currentScreenshotBase64 := base64Encode curr
  if previousScreenshotBase64.length + currentScreenshotBase64.length < B then
    { text := text,
      attachments :=
        [⟨"previousScreenshot_" ++ key ++ ".png", previousScreenshotBase64⟩,
         ⟨"currentScreenshot_" ++ key ++ ".png", currentScreenshotBase64⟩] }
  else
    { text := text ++ budgetNote B, attachments := [] }

/-- The record the run emits for a URL, if any: `none` when the crawler
left no `urlResults` entry for it (the processing loop then never sees the
URL), otherwise the processing branch taken for the surviving entry. -/
def emittedRecord (strategy : RetryStrategy) (store : UrlStore)
    (v : VisitResult) : Option ProcessOutcome :=
  (finalUrlResult strategy v).map (fun r => (processResult store r).2)

/-- A visit that got past the status and block checks but failed content
or screenshot extraction (main.ts lines 146-162). -/
def SelectorFailure (v : VisitResult) : Prop :=
  v.status < 400 ∧ v.blocked = false ∧
    (v.extractedContent = none ∨ v.elementScreenshot = none)

/-- A visit answered with a server-error status (>= 400, not the 404
early-return) or on which `testForBlocks` threw. -/
def ServerErrorOrBlocked (v : VisitResult) : Prop :=
  (400 ≤ v.status ∧ v.status ≠ 404) ∨ (v.status < 400 ∧ v.blocked = true)

/-- The empty per-URL store slice: no key set yet. -/
def emptyStore : UrlStore := ⟨none, none, none, none⟩

/-- On a selector failure the handler stores a full-page screenshot entry
and throws exactly under on-all-errors. -/
lemma handleVisit_selectorFailure (strategy : RetryStrategy)
    (v : VisitResult) (h : SelectorFailure v) :
    handleVisit strategy v =
      ⟨if strategy = .onAllErrors then .thrw else .ret,
        some ⟨none, some v.fullPageShot, none⟩⟩ := by
  obtain ⟨h1, h2, h3⟩ := h
  have e1 : ¬(v.status = 404 ∧ v.status ≠ 0) := by omega
  have e2 : ¬(400 ≤ v.status) := by omega
  simp [handleVisit, e1, e2, h2, h3]

/-- On a server error or a detected block the handler throws. -/
lemma handleVisit_serverErrorOrBlocked_action (strategy : RetryStrategy)
    (v : VisitResult) (h : ServerErrorOrBlocked v) :
    (handleVisit strategy v).action = .thrw := by
  rcases h with ⟨h1, h2⟩ | ⟨h1, h2⟩
  · have e1 : ¬(v.status = 404 ∧ v.status ≠ 0) := by omega
    simp [handleVisit, e1, h1]
  · have e1 : ¬(v.status = 404 ∧ v.status ≠ 0) := by omega
    have e2 : ¬(400 ≤ v.status) := by omega
    simp [handleVisit, e1, e2, h2]

/-- Processing an entry with no element screenshot goes straight to the
failure handler with the entry's full-page screenshot. -/
lemma processResult_no_screenshot (st : UrlStore) (fps : Option Bytes)
    (c : Option String) :
    processResult st ⟨none, fps, c⟩ = (st, .failed fps) := by
  simp [processResult]

end ContentChecker

namespace ContentChecker

/-- Claim C2: the diff step classifies as FirstRun when the baseline is
absent; with a baseline present it is Unchanged exactly when the stored
previous content equals the current content by exact string equality, and
Changed otherwise. -/
theorem c2_diff_classification :
    (∀ c : String, diff none none c = .FirstRun) ∧
    (∀ (s : Bytes) (p c : String),
      diff (some s) (some p) c = .Unchanged ↔ p = c) ∧
    (∀ (s : Bytes) (p c : String),
      p ≠ c → diff (some s) (some p) c = .Changed) := by
  refine ⟨fun c => rfl, fun s p c => ?_, fun s p c h => ?_⟩
  · by_cases h : p = c <;> simp [diff, h]
  · simp [diff, h]

/-- Witness for C2 at concrete inputs. -/
theorem c2_diff_classification_witness :
    diff none none "x" = .FirstRun ∧
    (diff (some [1]) (some "a") "a" = .Unchanged ↔ ("a" : String) = "a") ∧
    diff (some [1]) (some "a") "b" = .Changed :=
  ⟨c2_diff_classification.1 "x",
   c2_diff_classification.2.1 [1] "a" "a",
   c2_diff_classification.2.2 [1] "a" "b" (by decide)⟩

/-- Claim C10: first-run classification depends only on the previous
screenshot being absent; a present previous screenshot never gives
FirstRun, and an absent previous content with a present previous
screenshot gives Changed. -/
theorem c10_first_run_on_screenshot_only :
    (∀ (pd : Option String) (c : String), diff none pd c = .FirstRun) ∧
    (∀ (s : Bytes) (pd : Option String) (c : String),
      ¬ diff (some s) pd c = .FirstRun) ∧
    (∀ (s : Bytes) (c : String), diff (some s) none c = .Changed) := by
  refine ⟨fun pd c => rfl, fun s pd c => ?_, fun s c => ?_⟩
  · by_cases h : pd = some c <;> simp [diff, h]
  · simp [diff]

/-- Witness for C10 at concrete inputs. -/
theorem c10_first_run_on_screenshot_only_witness :
    ¬ diff (some [1]) (some "p") "c" = .FirstRun ∧
    diff (some [2]) none "c" = .Changed :=
  ⟨c10_first_run_on_screenshot_only.2.1 [1] (some "p") "c",
   c10_first_run_on_screenshot_only.2.2 [2] "c"⟩

/-- Claim C1 (code bug evidence): starting from an empty store, running
the workflow twice on the same unchanged page yields FirstRun again on
the second run, not Unchanged — no branch of the processing loop ever
writes the previousScreenshot or previousData keys with current values. -/
theorem c1_second_run_still_first_run :
    (processResult
        (processResult emptyStore ⟨some [1], none, some "A"⟩).1
        ⟨some [1], none, some "A"⟩).2 = ProcessOutcome.firstRun "A" ∧
    (processResult
        (processResult emptyStore ⟨some [1], none, some "A"⟩).1
        ⟨some [1], none, some "A"⟩).2 ≠ ProcessOutcome.unchanged ∧
    ((processResult emptyStore ⟨some [1], none, some "A"⟩).1).previousScreenshot
      = none := by
  decide

/-- Claim C9: a missing screenshot buffer or empty extracted content is
routed to the failure handler, leaving the store untouched (no diffing,
no baseline persistence), and an empty content string is processed
identically to an absent one. -/
theorem c9_empty_content_is_failure :
    (∀ (st : UrlStore) (r : UrlResult),
      r.screenshotBuffer = none ∨ jsFalsyContent r.content = true →
        processResult st r = (st, .failed r.fullPageScreenshot)) ∧
    (∀ (st : UrlStore) (scr fp : Option Bytes),
      processResult st ⟨scr, fp, some ""⟩ = processResult st ⟨scr, fp, none⟩) := by
  constructor
  · rintro st r (h | h)
    · simp [processResult, h]
    · by_cases hs : r.screenshotBuffer = none <;> simp [processResult, hs, h]
  · intro st scr fp
    have he : jsFalsyContent (some "") = true := rfl
    have hn : jsFalsyContent none = true := rfl
    by_cases hs : scr = none <;>
      simp [processResult, hs, he, hn]

/-- Witness for C9 at concrete inputs. -/
theorem c9_empty_content_is_failure_witness :
    processResult emptyStore ⟨some [1], some [2], some ""⟩ =
      (emptyStore, .failed (some [2])) ∧
    processResult emptyStore ⟨some [1], some [2], some ""⟩ =
      processResult emptyStore ⟨some [1], some [2], none⟩ :=
  ⟨c9_empty_content_is_failure.1 emptyStore ⟨some [1], some [2], some ""⟩
      (Or.inr rfl),
   c9_empty_content_is_failure.2 emptyStore (some [1]) (some [2])⟩

/-- Claim C3: when the summed base64 lengths are strictly below the budget
the mail carries exactly 2 attachments and the text is untouched;
otherwise it carries 0 attachments and the one-line disclosure is appended
to the text; it never carries exactly one attachment. -/
theorem c3_attachment_budget (B : Nat) (key text : String)
    (prev curr : Bytes) :
    ((base64Encode prev).length + (base64Encode curr).length < B →
      (assembleNotification B key text prev curr).attachments.length = 2 ∧
      (assembleNotification B key text prev curr).text = text) ∧
    (¬ (base64Encode prev).length + (base64Encode curr).length < B →
      (assembleNotification B key text prev curr).attachments = [] ∧
      (assembleNotification B key text prev curr).text = text ++ budgetNote B) ∧
    (assembleNotification B key text prev curr).attachments.length ≠ 1 := by
  by_cases h : (base64Encode prev).length + (base64Encode curr).length < B <;>
    simp [assembleNotification, h]

/-- Witness for C3: a budget large enough for both attachments, and one
too small for them. -/
theorem c3_attachment_budget_witness :
    (assembleNotification 100 "k" "t" [1] [2]).attachments.length = 2 ∧
    (assembleNotification 3 "k" "t" [1] [2]).attachments = [] ∧
    (assembleNotification 3 "k" "t" [1] [2]).text = "t" ++ budgetNote 3 :=
  ⟨((c3_attachment_budget 100 "k" "t" [1] [2]).1 (by decide)).1,
   ((c3_attachment_budget 3 "k" "t" [1] [2]).2.1 (by decide)).1,
   ((c3_attachment_budget 3 "k" "t" [1] [2]).2.1 (by decide)).2⟩

/-- Claim C4: a selector-extraction failure is retried only under
on-all-errors (while attempts remain); under on-block and never-retry the
handler does not throw, so no retry happens, and the stored entry is
processed as a failure carrying the fallback full-page screenshot. -/
theorem c4_selector_failure_retry (strategy : RetryStrategy)
    (maxRetries attempt : Nat) (v : VisitResult) (h : SelectorFailure v) :
    (willRetry .onAllErrors maxRetries attempt v =
      decide (attempt < maxRetries)) ∧
    ((strategy = .onBlock ∨ strategy = .neverRetry) →
      willRetry strategy maxRetries attempt v = false ∧
      finalUrlResult strategy v = some ⟨none, some v.fullPageShot, none⟩ ∧
      ∀ st : UrlStore,
        (processResult st ⟨none, some v.fullPageShot, none⟩).2 =
          .failed (some v.fullPageShot)) := by
  constructor
  · simp [willRetry, handleVisit_selectorFailure _ _ h, maxRequestRetries]
  · rintro (hs | hs) <;> subst hs <;>
      exact ⟨by simp [willRetry, handleVisit_selectorFailure _ _ h],
        by simp [finalUrlResult, handleVisit_selectorFailure _ _ h],
        fun st => by simp [processResult]⟩

/-- Witness for C4 at a concrete failed content extraction. -/
theorem c4_selector_failure_retry_witness :
    willRetry RetryStrategy.onAllErrors 5 0 ⟨200, false, none, none, [7]⟩ =
      decide (0 < 5) ∧
    willRetry RetryStrategy.onBlock 5 0 ⟨200, false, none, none, [7]⟩ = false ∧
    willRetry RetryStrategy.neverRetry 5 0 ⟨200, false, none, none, [7]⟩ = false :=
  ⟨(c4_selector_failure_retry .onBlock 5 0 ⟨200, false, none, none, [7]⟩
      ⟨by decide, rfl, Or.inl rfl⟩).1,
   ((c4_selector_failure_retry .onBlock 5 0 ⟨200, false, none, none, [7]⟩
      ⟨by decide, rfl, Or.inl rfl⟩).2 (Or.inl rfl)).1,
   ((c4_selector_failure_retry .neverRetry 5 0 ⟨200, false, none, none, [7]⟩
      ⟨by decide, rfl, Or.inl rfl⟩).2 (Or.inr rfl)).1⟩

/-- Claim C5: a 404 response makes the handler return early with no
urlResults entry: it is never retried under any strategy, the URL is
skipped (no entry means the processing loop never reports it). -/
theorem c5_soft_not_found (strategy : RetryStrategy)
    (maxRetries attempt : Nat) (v : VisitResult) (h : v.status = 404) :
    handleVisit strategy v = ⟨.ret, none⟩ ∧
    willRetry strategy maxRetries attempt v = false ∧
    finalUrlResult strategy v = none ∧
    emittedRecord strategy emptyStore v = none := by
  have hv : handleVisit strategy v = ⟨.ret, none⟩ := by
    simp [handleVisit, h]
  exact ⟨hv, by simp [willRetry, hv], by simp [finalUrlResult, hv],
    by simp [emittedRecord, finalUrlResult, hv]⟩

/-- Witness for C5 at a concrete 404 visit, under each strategy. -/
theorem c5_soft_not_found_witness :
    willRetry RetryStrategy.onBlock 5 0 ⟨404, false, some "x", some [1], [7]⟩ =
      false ∧
    willRetry RetryStrategy.onAllErrors 5 0 ⟨404, false, some "x", some [1], [7]⟩ =
      false ∧
    willRetry RetryStrategy.neverRetry 5 0 ⟨404, false, some "x", some [1], [7]⟩ =
      false :=
  ⟨(c5_soft_not_found .onBlock 5 0 ⟨404, false, some "x", some [1], [7]⟩ rfl).2.1,
   (c5_soft_not_found .onAllErrors 5 0 ⟨404, false, some "x", some [1], [7]⟩ rfl).2.1,
   (c5_soft_not_found .neverRetry 5 0 ⟨404, false, some "x", some [1], [7]⟩ rfl).2.1⟩

/-- Claim C6: a server error (status >= 400, non-404) or a detected block
throws, so it is retried while the attempt count is below the configured
maximum under on-block and on-all-errors; under never-retry the retry
budget is 0, so it fails after the single attempt. -/
theorem c6_server_error_blocked_retry (strategy : RetryStrategy)
    (maxRetries attempt : Nat) (v : VisitResult)
    (h : ServerErrorOrBlocked v) :
    (strategy ≠ .neverRetry →
      (willRetry strategy maxRetries attempt v = true ↔
        attempt < maxRetries)) ∧
    willRetry .neverRetry maxRetries attempt v = false ∧
    maxRequestRetries .neverRetry maxRetries = 0 := by
  have ha := handleVisit_serverErrorOrBlocked_action strategy v h
  have hn := handleVisit_serverErrorOrBlocked_action .neverRetry v h
  refine ⟨fun hs => ?_, ?_, rfl⟩
  · simp [willRetry, ha, maxRequestRetries, hs]
  · simp [willRetry, hn, maxRequestRetries]

/-- Witness for C6 at a concrete 503 visit and a concrete blocked visit. -/
theorem c6_server_error_blocked_retry_witness :
    (willRetry RetryStrategy.onBlock 5 0 ⟨503, false, none, none, [9]⟩ = true ↔
      0 < 5) ∧
    willRetry RetryStrategy.neverRetry 5 0 ⟨503, false, none, none, [9]⟩ =
      false ∧
    (willRetry RetryStrategy.onAllErrors 5 4 ⟨200, true, none, none, [9]⟩ = true ↔
      4 < 5) :=
  ⟨(c6_server_error_blocked_retry .onBlock 5 0 ⟨503, false, none, none, [9]⟩
      (Or.inl ⟨by decide, by decide⟩)).1 (by simp),
   (c6_server_error_blocked_retry .onBlock 5 0 ⟨503, false, none, none, [9]⟩
      (Or.inl ⟨by decide, by decide⟩)).2.1,
   (c6_server_error_blocked_retry .onAllErrors 5 4 ⟨200, true, none, none, [9]⟩
      (Or.inr ⟨by decide, rfl⟩)).1 (by simp)⟩

/-- Claim C7 counterexample: a visit answering 503 under on-block throws
on every attempt without ever writing a urlResults entry, so after the
retries are exhausted the run emits no record at all for the URL — it is
silently dropped, not reported as a failure record. -/
theorem c7_counterexample_503_dropped :
    (handleVisit .onBlock ⟨503, false, none, none, [9]⟩).action = .thrw ∧
    finalUrlResult .onBlock ⟨503, false, none, none, [9]⟩ = none ∧
    emittedRecord .onBlock emptyStore ⟨503, false, none, none, [9]⟩ = none := by
  decide

/-- Claim C7 as amended: a URL whose attempts reached the block-detection
or selector steps (block detected, or content/screenshot extraction
failed) leaves an entry holding only the fallback full-page screenshot,
and the processing loop reports it as a failure record with that
screenshot and no content; but a URL whose attempts all ended with an
HTTP error status (>= 400, other than 404) leaves no entry and no record
is emitted for it. -/
theorem c7_exhausted_retry_reporting (strategy : RetryStrategy)
    (store : UrlStore) (v w : VisitResult)
    (hv : v.status < 400 ∧
      (v.blocked = true ∨ v.extractedContent = none ∨
        v.elementScreenshot = none))
    (hw : 400 ≤ w.status ∧ w.status ≠ 404) :
    finalUrlResult strategy v = some ⟨none, some v.fullPageShot, none⟩ ∧
    emittedRecord strategy store v = some (.failed (some v.fullPageShot)) ∧
    finalUrlResult strategy w = none ∧
    emittedRecord strategy store w = none := by
  obtain ⟨hlt, hcase⟩ := hv
  have e1 : ¬(v.status = 404 ∧ v.status ≠ 0) := by omega
  have e2 : ¬(400 ≤ v.status) := by omega
  have hfv : finalUrlResult strategy v =
      some ⟨none, some v.fullPageShot, none⟩ := by
    by_cases hb : v.blocked = true
    · simp [finalUrlResult, handleVisit, e1, e2, hb]
    · simp only [Bool.not_eq_true] at hb
      have hsel : v.extractedContent = none ∨ v.elementScreenshot = none := by
        rcases hcase with hb2 | hc | hs
        · rw [hb2] at hb; cases hb
        · exact Or.inl hc
        · exact Or.inr hs
      simp [finalUrlResult, handleVisit, e1, e2, hb, hsel]
  have f1 : ¬(w.status = 404 ∧ w.status ≠ 0) := by omega
  have hfw : finalUrlResult strategy w = none := by
    simp [finalUrlResult, handleVisit, f1, hw.1]
  refine ⟨hfv, ?_, hfw, ?_⟩
  · simp [emittedRecord, hfv, processResult]
  · simp [emittedRecord, hfw]

/-- Witness for the amended C7: a blocked visit is reported as a failure
record with the fallback screenshot; a 503 visit leaves no record. -/
theorem c7_exhausted_retry_reporting_witness :
    emittedRecord RetryStrategy.onBlock emptyStore ⟨200, true, none, none, [9]⟩ =
      some (.failed (some [9])) ∧
    emittedRecord RetryStrategy.onBlock emptyStore ⟨503, false, none, none, [8]⟩ =
      none :=
  ⟨(c7_exhausted_retry_reporting .onBlock emptyStore
      ⟨200, true, none, none, [9]⟩ ⟨503, false, none, none, [8]⟩
      ⟨by decide, Or.inl rfl⟩ ⟨by decide, by decide⟩).2.1,
   (c7_exhausted_retry_reporting .onBlock emptyStore
      ⟨200, true, none, none, [9]⟩ ⟨503, false, none, none, [8]⟩
      ⟨by decide, Or.inl rfl⟩ ⟨by decide, by decide⟩).2.2.2⟩

/-- Claim C8 counterexample: two distinct URLs whose derived keys
coincide — stripping the base64 specials loses the distinction between
`http://aa.com/` and `http://aa.com/?` (both keys are
`aHR0cDovL2FhLmNvbS8`). -/
theorem c8_counterexample_key_collision :
    urlKey (strBytes "http://aa.com/?") = urlKey (strBytes "http://aa.com/") ∧
    strBytes "http://aa.com/?" ≠ strBytes "http://aa.com/" := by
  decide

/-- Claim C8 as amended: the key derivation is deterministic (a pure
function of the URL bytes, hence stable across runs), but it is not
injective: distinct URLs can collide, because stripping the
non-alphanumeric base64 characters discards information. -/
theorem c8_key_deterministic_not_injective :
    (∀ u v : List Nat, u = v → urlKey u = urlKey v) ∧
    ∃ u v : List Nat, u ≠ v ∧ urlKey u = urlKey v :=
  ⟨fun _ _ h => h ▸ rfl,
   ⟨strBytes "http://aa.com/?", strBytes "http://aa.com/",
     by decide, by decide⟩⟩

/-- Witness for the amended C8: determinism applied at a concrete URL. -/
theorem c8_key_deterministic_not_injective_witness :
    urlKey (strBytes "http://x") = urlKey (strBytes "http://x") :=
  c8_key_deterministic_not_injective.1 _ _ rfl

end ContentChecker
